import Mathlib

/-!
Verification of the travel_scheduler repository's specification claims.

The Python sources are shallowly embedded: pure functions become Lean
functions, the MongoDB collections become lists of documents with the
store operations as explicit state transformations, and the
`try/except` error handling becomes pattern matching on `Except`
values that model the outcome of the underlying store call.

The file is laid out with every definition first, followed by the
lemmas and theorems about them.
-/

namespace TravelScheduler

/-! ## String primitives -/

/-- Python's substring test `needle in hay` on lists of characters:
true iff `needle` occurs contiguously inside `hay`. -/
def listContains (needle : List Char) : List Char → Bool
  | [] => needle.isEmpty
  | c :: rest => needle.isPrefixOf (c :: rest) || listContains needle rest

/-- Python's `needle in hay` for strings. -/
def strContains (hay needle : String) : Bool :=
  listContains needle.toList hay.toList

/-- Python's `s.lower()`, character by character (ASCII case folding,
which covers every keyword the code matches on). -/
def strLower (s : String) : String :=
  ⟨s.data.map Char.toLower⟩

/-! ## knowledge_helper.py : TravelKnowledgeHelper

Static data from `TravelKnowledgeHelper.__init__`
(`travel_data["packing"]`). -/

/-- `travel_data["packing"]["essentials"]`. -/
def essentials : List String :=
  ["passport", "phone charger", "medications", "comfortable shoes"]

/-- `travel_data["packing"]["weather_gear"]["hot"]`. -/
def hotGear : List String :=
  ["sunscreen", "hat", "light clothing", "water bottle"]

/-- `travel_data["packing"]["weather_gear"]["cold"]`. -/
def coldGear : List String :=
  ["warm jacket", "gloves", "hat", "thermal underwear"]

/-- `travel_data["packing"]["weather_gear"]["rainy"]`. -/
def rainyGear : List String :=
  ["umbrella", "waterproof jacket", "quick-dry clothes"]

/-- The three items appended by `get_packing_list` when `duration > 7`. -/
def durationExtras : List String :=
  ["laundry detergent", "extra underwear", "backup electronics"]

/-- `TravelKnowledgeHelper.get_packing_list(destination, weather, duration)`.
The `destination` argument is unused by the Python body, so it is omitted.
`base_list` starts as a copy of the essentials; one weather bucket is
appended by the if/elif/elif chain; the duration extras are appended when
`duration > 7`. -/
def get_packing_list (weather : String) (duration : Int) : List String :=
  let base := essentials
  let base :=
    if strContains (strLower weather) "hot" || strContains (strLower weather) "sunny" then
      base ++ hotGear
    else if strContains (strLower weather) "cold" || strContains (strLower weather) "snow" then
      base ++ coldGear
    else if strContains (strLower weather) "rain" then
      base ++ rainyGear
    else
      base
  let base := if 7 < duration then base ++ durationExtras else base
  base

/-- The weather bucket chosen by the if/elif/elif chain of
`get_packing_list` (empty when no keyword matches). -/
def weatherBucket (weather : String) : List String :=
  if strContains (strLower weather) "hot" || strContains (strLower weather) "sunny" then
    hotGear
  else if strContains (strLower weather) "cold" || strContains (strLower weather) "snow" then
    coldGear
  else if strContains (strLower weather) "rain" then
    rainyGear
  else
    []

/-! ## scheduler.py : TravelScheduler.chat_with_agent -/

/-- The three agents of the scheduler. -/
inductive AgentKind where
  | itinerary
  | memory
  | advisor
deriving DecidableEq

/-- The agent selection performed by `TravelScheduler.chat_with_agent`:
`"itinerary"` and `"memory"` select their named agents, everything else
falls through to the advisor agent. -/
def chatAgentFor (agent_type : String) : AgentKind :=
  if agent_type = "itinerary" then AgentKind.itinerary
  else if agent_type = "memory" then AgentKind.memory
  else AgentKind.advisor

/-! ## weather_tool.py : WeatherTool.get_weather_alerts -/

/-- Alert strings from `get_weather_alerts`. -/
def rainAlert : String := "⚠️ Rain/Storm Alert: Consider indoor activities"

/-- Snow alert string from `get_weather_alerts`. -/
def snowAlert : String := "❄️ Snow Alert: Dress warmly and allow extra travel time"

/-- High wind alert string from `get_weather_alerts`. -/
def windAlert : String := "💨 High Wind Alert: Be cautious with outdoor activities"

/-- The `alerts` list built inside `WeatherTool.get_weather_alerts`, in
source order.  Note the asymmetry, faithful to the source: "rain",
"storm", "snow" and "high" are matched against the lowercased text,
while "wind" is matched against the raw text. -/
def weatherAlertList (weather_info : String) : List String :=
  (if strContains (strLower weather_info) "rain" || strContains (strLower weather_info) "storm"
    then [rainAlert] else []) ++
  (if strContains (strLower weather_info) "snow" then [snowAlert] else []) ++
  (if strContains weather_info "wind" && strContains (strLower weather_info) "high"
    then [windAlert] else [])

/-- `WeatherTool.get_weather_alerts`, as a function of the city and of
the already-rendered current-weather text (`get_current_weather`'s
return value; that network call is modelled as an input). -/
def get_weather_alerts (city weather_info : String) : String :=
  if strContains weather_info "Error" then weather_info
  else
    let alerts := weatherAlertList weather_info
    if alerts ≠ [] then
      "Weather Alerts for " ++ city ++ ":\n" ++ String.intercalate "\n" alerts
    else
      "No weather alerts for " ++ city ++ ". Conditions are favorable for travel!"

/-! ## database.py : TravelDatabase over a list-backed document store -/

/-- Python `datetime` as produced by `datetime.utcnow()`: calendar
fields down to microseconds. -/
structure DateTime where
  year : Nat
  month : Nat
  day : Nat
  hour : Nat
  minute : Nat
  second : Nat
  micro : Nat
deriving DecidableEq

/-- Chronological sort key of a `DateTime` (injective and monotone for
in-range field values); this is the order MongoDB's
`sort("created_at", -1)` uses on stored datetimes. -/
def DateTime.toNat (d : DateTime) : Nat :=
  ((((((d.year * 13 + d.month) * 32 + d.day) * 24 + d.hour) * 60 + d.minute) * 60
      + d.second) * 1000000) + d.micro

/-- Two datetimes within the same second: equal on every field except
the microsecond one. -/
def DateTime.sameSecond (a b : DateTime) : Prop :=
  a.year = b.year ∧ a.month = b.month ∧ a.day = b.day ∧
  a.hour = b.hour ∧ a.minute = b.minute ∧ a.second = b.second

/-- Zero-padded decimal rendering, as Python `strftime` field output. -/
def padNat (width n : Nat) : String :=
  let s := toString n
  String.mk (List.replicate (width - s.length) '0') ++ s

/-- `dt.strftime('%Y%m%d_%H%M%S')`: calendar fields to the second; the
microsecond field does not appear. -/
def strftimeYmdHMS (d : DateTime) : String :=
  padNat 4 d.year ++ padNat 2 d.month ++ padNat 2 d.day ++ "_" ++
    padNat 2 d.hour ++ padNat 2 d.minute ++ padNat 2 d.second

/-- MongoDB's `sort` by descending `Nat` key, modelled as insertion
sort (MongoDB leaves the order of equal keys unspecified; this model
picks one). -/
def sortByKeyDesc (key : α → Nat) (l : List α) : List α :=
  List.insertionSort (fun a b => key b ≤ key a) l

/-- The fields `save_trip_history` reads out of `trip_data` with `.get`
(absent keys become `None`). -/
structure TripData where
  destination : Option String
  start_date : Option String
  end_date : Option String
  preferences : Option String
  budget : Option String
  itinerary : Option String
deriving DecidableEq

/-- A document of the `trip_history` collection.  The store-generated
`_id` plays no part in any claim and is omitted. -/
structure TripDoc where
  user_id : String
  trip_id : String
  destination : Option String
  start_date : Option String
  end_date : Option String
  preferences : Option String
  budget : Option String
  itinerary : Option String
  created_at : DateTime
deriving DecidableEq

/-- The document built inside `save_trip_history`:
`trip_id = f"{user_id}_{datetime.utcnow().strftime('%Y%m%d_%H%M%S')}"`. -/
def mkTripDoc (user_id : String) (d : TripData) (now : DateTime) : TripDoc :=
  { user_id := user_id
    trip_id := user_id ++ "_" ++ strftimeYmdHMS now
    destination := d.destination
    start_date := d.start_date
    end_date := d.end_date
    preferences := d.preferences
    budget := d.budget
    itinerary := d.itinerary
    created_at := now }

/-- `TravelDatabase.save_trip_history`.  The `store` argument is the
outcome of reaching the `trip_history` collection; `Except.error`
models the exception path of the `try/except` block.  The result is
the Python boolean return value together with the collection state:
`insert_one` appends the new document in insertion order and never
replaces an existing one. -/
def save_trip_history (store : Except String (List TripDoc)) (user_id : String)
    (trip_data : TripData) (now : DateTime) : Bool × Except String (List TripDoc) :=
  match store with
  | Except.error e => (false, Except.error e)
  | Except.ok trips => (true, Except.ok (trips ++ [mkTripDoc user_id trip_data now]))

/-- `TravelDatabase.get_trip_history`:
`find({"user_id": user_id}).sort("created_at", -1).limit(limit)`; the
empty list on the exception path. -/
def get_trip_history (store : Except String (List TripDoc)) (user_id : String)
    (limit : Nat) : List TripDoc :=
  match store with
  | Except.error _ => []
  | Except.ok trips =>
    (sortByKeyDesc (fun t => t.created_at.toNat)
      (trips.filter (fun t => t.user_id == user_id))).take limit

/-- A document of the `user_preferences` collection; the free-form
`preferences` dictionary is modelled as an association list. -/
structure PrefDoc where
  user_id : String
  preferences : List (String × String)
  created_at : DateTime
  updated_at : DateTime
deriving DecidableEq

/-- MongoDB `replace_one(filter, doc, upsert=True)` on a list-backed
collection: replaces the first document matching the filter, appends
the document when none matches. -/
def replaceOneUpsert (docs : List PrefDoc) (user_id : String) (doc : PrefDoc) :
    List PrefDoc :=
  match docs with
  | [] => [doc]
  | p :: rest =>
    if p.user_id == user_id then doc :: rest
    else p :: replaceOneUpsert rest user_id doc

/-- `TravelDatabase.save_user_preferences`: builds the document with
both `created_at` and `updated_at` stamped at save time and upserts it
on the `user_id` filter. -/
def save_user_preferences (store : Except String (List PrefDoc)) (user_id : String)
    (preferences : List (String × String)) (now : DateTime) :
    Bool × Except String (List PrefDoc) :=
  match store with
  | Except.error e => (false, Except.error e)
  | Except.ok docs =>
    (true, Except.ok (replaceOneUpsert docs user_id
      { user_id := user_id, preferences := preferences,
        created_at := now, updated_at := now }))

/-- `TravelDatabase.get_user_preferences`: `find_one({"user_id": ...})`
returns the first matching document, whose `preferences` field is
extracted; `None` on a miss and on the exception path. -/
def get_user_preferences (store : Except String (List PrefDoc)) (user_id : String) :
    Option (List (String × String)) :=
  match store with
  | Except.error _ => none
  | Except.ok docs =>
    match docs.find? (fun p => p.user_id == user_id) with
    | some p => some p.preferences
    | none => none

/-- A document of the `agent_memory` collection. -/
structure MemDoc where
  user_id : String
  agent_type : String
  conversation : String
  response : String
  timestamp : DateTime
deriving DecidableEq

/-- `TravelDatabase.save_agent_memory`: `insert_one` appends. -/
def save_agent_memory (store : Except String (List MemDoc))
    (user_id agent_type conversation response : String) (now : DateTime) :
    Bool × Except String (List MemDoc) :=
  match store with
  | Except.error e => (false, Except.error e)
  | Except.ok docs =>
    (true, Except.ok (docs ++
      [{ user_id := user_id, agent_type := agent_type,
         conversation := conversation, response := response, timestamp := now }]))

/-- `TravelDatabase.get_agent_memory`: filters on `user_id`, adds the
`agent_type` filter only when that argument is truthy in Python (not
`None` and not the empty string), sorts by `timestamp` descending and
takes `limit`; the empty list on the exception path. -/
def get_agent_memory (store : Except String (List MemDoc)) (user_id : String)
    (agent_type : Option String) (limit : Nat) : List MemDoc :=
  match store with
  | Except.error _ => []
  | Except.ok docs =>
    let query := fun (m : MemDoc) =>
      m.user_id == user_id &&
        (match agent_type with
         | none => true
         | some a => if a = "" then true else m.agent_type == a)
    (sortByKeyDesc (fun m => m.timestamp.toNat) (docs.filter query)).take limit

/-! ## weather_tool.py : WeatherTool.get_weather_forecast -/

/-- One three-hour sample of the provider's forecast response:
`dt_txt`, `main.temp` (kept as its rendered text) and
`weather[0].description`. -/
structure ForecastSample where
  dt_txt : String
  temp : String
  description : String
deriving DecidableEq

/-- `item["dt_txt"][:10]`: the calendar-date part of the stamp
(Python slicing by characters). -/
def sampleDate (s : ForecastSample) : String := ⟨s.dt_txt.data.take 10⟩

/-- `item["dt_txt"][11:16]`: the clock-time part of the stamp. -/
def sampleTime (s : ForecastSample) : String := ⟨(s.dt_txt.data.drop 11).take 5⟩

/-- One emitted piece of the forecast text: a date heading
(`📅 {date}:`) or a sample line. -/
inductive ForecastLine where
  | heading (date : String)
  | entry (text : String)
deriving DecidableEq

/-- The sample line `  {time}: {temp}°C, {description}`. -/
def sampleEntry (s : ForecastSample) : ForecastLine :=
  ForecastLine.entry ("  " ++ sampleTime s ++ ": " ++ s.temp ++ "°C, " ++ s.description)

/-- The rendering loop of `get_weather_forecast`, with `current_date`
as the loop-carried state (`None` initially): a date heading is
emitted whenever the sample's date differs from `current_date`,
followed by the sample's own line. -/
def renderForecastAux (current_date : Option String) :
    List ForecastSample → List ForecastLine
  | [] => []
  | s :: rest =>
    if current_date = some (sampleDate s) then
      sampleEntry s :: renderForecastAux (some (sampleDate s)) rest
    else
      ForecastLine.heading (sampleDate s) :: sampleEntry s ::
        renderForecastAux (some (sampleDate s)) rest

/-- The sample-dependent body of the forecast text (the leading
`Weather Forecast for {city}` line does not depend on the samples and
is omitted). -/
def renderForecast (samples : List ForecastSample) : List ForecastLine :=
  renderForecastAux none samples

/-- The date headings of a rendered forecast, in emission order. -/
def headings : List ForecastLine → List String
  | [] => []
  | ForecastLine.heading d :: rest => d :: headings rest
  | ForecastLine.entry _ :: rest => headings rest

/-- Specification-side renderer, following the spec's words: one
heading per run of equal-dated samples, with every line of the run
nested directly beneath its heading. -/
def groupedRender : List ForecastSample → List ForecastLine
  | [] => []
  | s :: rest =>
    ForecastLine.heading (sampleDate s) :: sampleEntry s ::
      ((rest.takeWhile (fun t => sampleDate t == sampleDate s)).map sampleEntry ++
        groupedRender (rest.dropWhile (fun t => sampleDate t == sampleDate s)))
termination_by l => l.length
decreasing_by
  simp only [List.length_cons]
  exact Nat.lt_succ_of_le (List.Sublist.length_le (List.dropWhile_sublist _))

end TravelScheduler

namespace TravelScheduler

/-! ## Lemmas and theorems -/

lemma get_packing_list_eq (weather : String) (duration : Int) :
    get_packing_list weather duration =
      essentials ++ weatherBucket weather ++ (if 7 < duration then durationExtras else []) := by
  simp only [get_packing_list, weatherBucket]
  by_cases h1 : (strContains (strLower weather) "hot" || strContains (strLower weather) "sunny") = true <;>
    by_cases h2 : (strContains (strLower weather) "cold" || strContains (strLower weather) "snow") = true <;>
      by_cases h3 : strContains (strLower weather) "rain" = true <;>
        by_cases h4 : 7 < duration <;>
          simp [h1, h2, h3, h4]

lemma weatherBucket_cases (w : String) :
    weatherBucket w = hotGear ∨ weatherBucket w = coldGear ∨
    weatherBucket w = rainyGear ∨ weatherBucket w = [] := by
  unfold weatherBucket
  split
  · exact Or.inl rfl
  · split
    · exact Or.inr (Or.inl rfl)
    · split
      · exact Or.inr (Or.inr (Or.inl rfl))
      · exact Or.inr (Or.inr (Or.inr rfl))

lemma weatherBucket_hot (w : String)
    (h : (strContains (strLower w) "hot" || strContains (strLower w) "sunny") = true) :
    weatherBucket w = hotGear := by
  simp only [weatherBucket, h, if_true]

/-- C2: `get_packing_list` picks at most one weather bucket, first match
winning with hot before cold: a description containing both "hot" and
"cold" (case-insensitively) yields the essentials followed by the hot
gear, with none of the cold-gear-only items ("hat" is in both buckets);
and any description containing "hot" or "sunny" yields a result that
starts with the essentials followed by the hot gear, in that order. -/
theorem packing_hot_first_match (weather : String) (duration : Int) :
    (strContains (strLower weather) "hot" = true →
      strContains (strLower weather) "cold" = true →
      (essentials ++ hotGear) <+: get_packing_list weather duration ∧
      "warm jacket" ∉ get_packing_list weather duration ∧
      "gloves" ∉ get_packing_list weather duration ∧
      "thermal underwear" ∉ get_packing_list weather duration) ∧
    ((strContains (strLower weather) "hot" = true ∨ strContains (strLower weather) "sunny" = true) →
      (essentials ++ hotGear) <+: get_packing_list weather duration) := by
  have key : ∀ (h : (strContains (strLower weather) "hot" || strContains (strLower weather) "sunny") = true),
      (essentials ++ hotGear) <+: get_packing_list weather duration ∧
      "warm jacket" ∉ get_packing_list weather duration ∧
      "gloves" ∉ get_packing_list weather duration ∧
      "thermal underwear" ∉ get_packing_list weather duration := by
    intro h
    rw [get_packing_list_eq, weatherBucket_hot weather h]
    refine ⟨List.prefix_append _ _, ?_, ?_, ?_⟩ <;> split <;> decide
  constructor
  · intro h1 _
    exact key (by simp [h1])
  · intro h
    exact (key (by rcases h with h | h <;> simp [h])).1

/-- Witness for C2 at the concrete description "hot and cold". -/
theorem packing_hot_first_match_witness :
    (essentials ++ hotGear) <+: get_packing_list "hot and cold" 3 ∧
    "warm jacket" ∉ get_packing_list "hot and cold" 3 :=
  ⟨((packing_hot_first_match "hot and cold" 3).1 (by decide) (by decide)).1,
   ((packing_hot_first_match "hot and cold" 3).1 (by decide) (by decide)).2.1⟩

/-- C3: for any weather description, `get_packing_list` with
`duration > 7` appends exactly the three duration extras at the end of
the list, and with `duration = 7` none of the three extras appears. -/
theorem packing_duration_rule (weather : String) (duration : Int) :
    (7 < duration →
      get_packing_list weather duration = get_packing_list weather 7 ++ durationExtras) ∧
    ("laundry detergent" ∉ get_packing_list weather 7 ∧
     "extra underwear" ∉ get_packing_list weather 7 ∧
     "backup electronics" ∉ get_packing_list weather 7) := by
  have h7 : ¬ ((7 : Int) < 7) := by decide
  constructor
  · intro h
    rw [get_packing_list_eq, get_packing_list_eq, if_pos h, if_neg h7]
    simp
  · rw [get_packing_list_eq, if_neg h7]
    rcases weatherBucket_cases weather with hb | hb | hb | hb <;> rw [hb] <;> decide

/-- Witness for C3 at weather "mild", duration 10. -/
theorem packing_duration_rule_witness :
    get_packing_list "mild" 10 = get_packing_list "mild" 7 ++ durationExtras :=
  (packing_duration_rule "mild" 10).1 (by decide)

/-- C10: the packing list always starts with the four essentials as a
prefix, and when no weather keyword matches and the trip is short the
result is exactly the essentials. -/
theorem packing_essentials_first (weather : String) (duration : Int) :
    essentials <+: get_packing_list weather duration ∧
    (strContains (strLower weather) "hot" = false →
     strContains (strLower weather) "sunny" = false →
     strContains (strLower weather) "cold" = false →
     strContains (strLower weather) "snow" = false →
     strContains (strLower weather) "rain" = false →
     duration ≤ 7 →
     get_packing_list weather duration = essentials) := by
  constructor
  · rw [get_packing_list_eq, List.append_assoc]
    exact List.prefix_append _ _
  · intro h1 h2 h3 h4 h5 h6
    rw [get_packing_list_eq, if_neg (Int.not_lt.mpr h6)]
    simp [weatherBucket, h1, h2, h3, h4, h5]

/-- Witness for C10 at weather "mild", duration 3. -/
theorem packing_essentials_first_witness :
    get_packing_list "mild" 3 = essentials :=
  (packing_essentials_first "mild" 3).2 (by decide) (by decide) (by decide)
    (by decide) (by decide) (by decide)

/-- C9: `chat_with_agent` dispatches to the itinerary agent for
"itinerary", to the memory agent for "memory", and to the advisor agent
for "advisor" as well as for every unrecognized agent type string. -/
theorem chat_dispatch (s : String) :
    chatAgentFor "itinerary" = AgentKind.itinerary ∧
    chatAgentFor "memory" = AgentKind.memory ∧
    chatAgentFor "advisor" = AgentKind.advisor ∧
    (s ≠ "itinerary" → s ≠ "memory" → chatAgentFor s = AgentKind.advisor) := by
  refine ⟨by decide, by decide, by decide, ?_⟩
  intro h1 h2
  simp [chatAgentFor, h1, h2]

/-- Witness for C9 at the unrecognized agent type "weather". -/
theorem chat_dispatch_witness :
    chatAgentFor "weather" = AgentKind.advisor :=
  (chat_dispatch "weather").2.2.2 (by decide) (by decide)

lemma mem_weatherAlertList (x w : String) :
    x ∈ weatherAlertList w ↔
      ((strContains (strLower w) "rain" || strContains (strLower w) "storm") = true ∧ x = rainAlert) ∨
      (strContains (strLower w) "snow" = true ∧ x = snowAlert) ∨
      ((strContains w "wind" && strContains (strLower w) "high") = true ∧ x = windAlert) := by
  unfold weatherAlertList
  split <;> split <;> split <;> simp_all
  all_goals
    constructor
    · tauto
    · rintro (h | h | h) <;> simp_all

/-- C8: `get_weather_alerts` derives its alerts purely by keyword
matching inside the already-rendered current-weather text: the
rain/storm alert appears exactly when the lowercased text contains
"rain" or "storm", the snow alert exactly when it contains "snow", the
high-wind alert exactly when the raw text contains "wind" and the
lowercased text contains "high"; an error-flavored current-weather text
is returned unchanged, and otherwise the returned text is the alert
header with the collected alerts, or the no-alerts message. -/
theorem weather_alerts_by_keyword (city winfo : String) :
    (strContains winfo "Error" = true → get_weather_alerts city winfo = winfo) ∧
    (rainAlert ∈ weatherAlertList winfo ↔
      (strContains (strLower winfo) "rain" || strContains (strLower winfo) "storm") = true) ∧
    (snowAlert ∈ weatherAlertList winfo ↔ strContains (strLower winfo) "snow" = true) ∧
    (windAlert ∈ weatherAlertList winfo ↔
      (strContains winfo "wind" && strContains (strLower winfo) "high") = true) ∧
    (strContains winfo "Error" = false →
      get_weather_alerts city winfo =
        if weatherAlertList winfo ≠ [] then
          "Weather Alerts for " ++ city ++ ":\n" ++ String.intercalate "\n" (weatherAlertList winfo)
        else
          "No weather alerts for " ++ city ++ ". Conditions are favorable for travel!") := by
  have ne1 : rainAlert ≠ snowAlert := by decide
  have ne2 : rainAlert ≠ windAlert := by decide
  have ne3 : snowAlert ≠ rainAlert := by decide
  have ne4 : snowAlert ≠ windAlert := by decide
  have ne5 : windAlert ≠ rainAlert := by decide
  have ne6 : windAlert ≠ snowAlert := by decide
  refine ⟨?_, ?_, ?_, ?_, ?_⟩
  · intro h
    simp [get_weather_alerts, h]
  · simp [mem_weatherAlertList, ne1, ne2]
  · simp [mem_weatherAlertList, ne3, ne4]
  · simp [mem_weatherAlertList, ne5, ne6]
  · intro h
    simp [get_weather_alerts, h]

/-- Witness for C8 at an error-flavored current-weather text. -/
theorem weather_alerts_by_keyword_witness :
    get_weather_alerts "Paris" "Error getting weather data: boom" =
      "Error getting weather data: boom" :=
  (weather_alerts_by_keyword "Paris" "Error getting weather data: boom").1 (by decide)


lemma sortByKeyDesc_pairwise (key : α → Nat) (l : List α) :
    (sortByKeyDesc key l).Pairwise (fun a b => key b ≤ key a) := by
  haveI : IsTotal α (fun a b => key b ≤ key a) :=
    ⟨fun a b => (Nat.le_total (key b) (key a)).elim Or.inl Or.inr⟩
  haveI : IsTrans α (fun a b => key b ≤ key a) :=
    ⟨fun _ _ _ h1 h2 => le_trans h2 h1⟩
  exact List.sorted_insertionSort _ l

lemma sortByKeyDesc_perm (key : α → Nat) (l : List α) :
    List.Perm (sortByKeyDesc key l) l :=
  List.perm_insertionSort _ l

lemma sortByKeyDesc_strict_max_take_one (key : α → Nat) (l : List α) (m : α)
    (h : ∀ t ∈ l, key t < key m) :
    (sortByKeyDesc key (l ++ [m])).take 1 = [m] := by
  have hperm := sortByKeyDesc_perm key (l ++ [m])
  have hpair := sortByKeyDesc_pairwise key (l ++ [m])
  cases hs : sortByKeyDesc key (l ++ [m]) with
  | nil =>
      rw [hs] at hperm
      simpa using hperm.length_eq
  | cons x rest =>
      rw [hs] at hperm hpair
      have hx : x ∈ l ++ [m] := hperm.mem_iff.mp (List.mem_cons_self x rest)
      have hmm : m ∈ x :: rest := hperm.mem_iff.mpr (by simp)
      rcases List.mem_append.mp hx with hxl | hxm
      · exfalso
        have hlt := h x hxl
        rcases List.mem_cons.mp hmm with rfl | hmr
        · exact lt_irrefl _ hlt
        · exact absurd ((List.pairwise_cons.mp hpair).1 m hmr) (not_le.mpr hlt)
      · simp only [List.mem_singleton] at hxm
        subst hxm
        rfl

/-- C1: saving a trip and immediately listing the user's trip history
with limit 1 returns exactly the just-written record (the hypothesis
states "immediately": every already-stored record of that user carries
a strictly earlier `created_at`); and, for every store state, user and
limit, the sequence returned by `get_trip_history` is ordered by
`created_at` descending (newest first). -/
theorem trip_append_then_list (trips : List TripDoc) (uid : String) (d : TripData)
    (now : DateTime) (store : List TripDoc) (uid2 : String) (lim : Nat)
    (h : ∀ t ∈ trips, t.user_id = uid → t.created_at.toNat < now.toNat) :
    get_trip_history (save_trip_history (Except.ok trips) uid d now).2 uid 1 =
      [mkTripDoc uid d now] ∧
    (get_trip_history (Except.ok store) uid2 lim).Pairwise
      (fun a b => b.created_at.toNat ≤ a.created_at.toNat) := by
  constructor
  · show (sortByKeyDesc (fun t => t.created_at.toNat)
        ((trips ++ [mkTripDoc uid d now]).filter (fun t => t.user_id == uid))).take 1 = _
    rw [List.filter_append]
    have hm : ((mkTripDoc uid d now).user_id == uid) = true := by simp [mkTripDoc]
    rw [show List.filter (fun t => t.user_id == uid) [mkTripDoc uid d now] =
        [mkTripDoc uid d now] by simp [hm]]
    apply sortByKeyDesc_strict_max_take_one
    intro t ht
    exact h t (List.mem_of_mem_filter ht) (by simpa using List.of_mem_filter ht)
  · exact List.Pairwise.sublist (List.take_sublist _ _) (sortByKeyDesc_pairwise _ _)

/-- Witness for C1: write to an empty store, read back with limit 1. -/
theorem trip_append_then_list_witness :
    get_trip_history (save_trip_history (Except.ok ([] : List TripDoc)) "u"
        ⟨some "Paris", none, none, none, none, none⟩ ⟨2024, 6, 1, 12, 0, 5, 100⟩).2 "u" 1 =
      [mkTripDoc "u" ⟨some "Paris", none, none, none, none, none⟩ ⟨2024, 6, 1, 12, 0, 5, 100⟩] :=
  (trip_append_then_list [] "u" ⟨some "Paris", none, none, none, none, none⟩
    ⟨2024, 6, 1, 12, 0, 5, 100⟩ [] "u" 1 (by simp)).1

/-- C6: when the underlying store call fails (the `Except.error` path,
standing for the caught exception), every `TravelDatabase` operation
returns its degraded value instead of propagating the failure:
`get_user_preferences` returns `none`, `get_trip_history` and
`get_agent_memory` return the empty list, and the three save
operations return `false`.  No operation raises: all the embedded
operations are total functions. -/
theorem store_failure_degrades (e : String) (uid uid2 uid3 : String)
    (atype : Option String) (lim lim2 : Nat) (prefs : List (String × String))
    (d : TripData) (a c r : String) (t1 t2 t3 : DateTime) :
    get_user_preferences (Except.error e) uid = none ∧
    get_trip_history (Except.error e) uid2 lim = [] ∧
    get_agent_memory (Except.error e) uid3 atype lim2 = [] ∧
    (save_user_preferences (Except.error e) uid prefs t1).1 = false ∧
    (save_trip_history (Except.error e) uid2 d t2).1 = false ∧
    (save_agent_memory (Except.error e) uid3 a c r t3).1 = false :=
  ⟨rfl, rfl, rfl, rfl, rfl, rfl⟩

lemma filter_replaceOneUpsert (docs : List PrefDoc) (uid : String) (doc : PrefDoc)
    (hdoc : doc.user_id = uid)
    (h : (docs.filter (fun p => p.user_id == uid)).length ≤ 1) :
    (replaceOneUpsert docs uid doc).filter (fun p => p.user_id == uid) = [doc] := by
  induction docs with
  | nil => simp [replaceOneUpsert, hdoc]
  | cons p rest ih =>
      by_cases hp : (p.user_id == uid) = true
      · simp only [List.filter_cons, hp, if_true, List.length_cons] at h
        have hrest : rest.filter (fun q => q.user_id == uid) = [] :=
          List.length_eq_zero.mp (by omega)
        simp [replaceOneUpsert, hp, List.filter_cons, hdoc, hrest]
      · simp only [List.filter_cons, hp] at h
        simp [replaceOneUpsert, hp, List.filter_cons, ih (by simpa using h)]

/-- C7: upserting preferences twice for the same user leaves exactly
one preference record for that user, carrying the second call's fields
(replace-on-write, no history).  The hypothesis is the collection
invariant maintained by `save_user_preferences` itself: at most one
record per user. -/
theorem upsert_preferences_twice (docs : List PrefDoc) (uid : String)
    (p1 p2 : List (String × String)) (t1 t2 : DateTime)
    (h : (docs.filter (fun p => p.user_id == uid)).length ≤ 1) :
    ∃ s1 s2,
      save_user_preferences (Except.ok docs) uid p1 t1 = (true, Except.ok s1) ∧
      save_user_preferences (Except.ok s1) uid p2 t2 = (true, Except.ok s2) ∧
      s2.filter (fun p => p.user_id == uid) =
        [{ user_id := uid, preferences := p2, created_at := t2, updated_at := t2 }] := by
  have h1 := filter_replaceOneUpsert docs uid
    { user_id := uid, preferences := p1, created_at := t1, updated_at := t1 } rfl h
  have h2 := filter_replaceOneUpsert
    (replaceOneUpsert docs uid
      { user_id := uid, preferences := p1, created_at := t1, updated_at := t1 }) uid
    { user_id := uid, preferences := p2, created_at := t2, updated_at := t2 } rfl
    (by rw [h1]; simp)
  exact ⟨_, _, rfl, rfl, h2⟩

/-- Witness for C7: two upserts into an empty store. -/
theorem upsert_preferences_twice_witness :
    ∃ s1 s2,
      save_user_preferences (Except.ok ([] : List PrefDoc)) "u"
        [("budget", "low")] ⟨2024, 6, 1, 10, 0, 0, 0⟩ = (true, Except.ok s1) ∧
      save_user_preferences (Except.ok s1) "u"
        [("budget", "high")] ⟨2024, 6, 1, 10, 5, 0, 0⟩ = (true, Except.ok s2) ∧
      s2.filter (fun p => p.user_id == "u") =
        [{ user_id := "u", preferences := [("budget", "high")],
           created_at := ⟨2024, 6, 1, 10, 5, 0, 0⟩, updated_at := ⟨2024, 6, 1, 10, 5, 0, 0⟩ }] :=
  upsert_preferences_twice [] "u" [("budget", "low")] [("budget", "high")]
    ⟨2024, 6, 1, 10, 0, 0, 0⟩ ⟨2024, 6, 1, 10, 5, 0, 0⟩ (by simp)

/-- C5 (amended): two trips saved within the same second for the same
user produce records with equal `trip_id` values (`trip_id` is derived
from `user_id` plus the creation timestamp truncated to the second),
and the second write is not rejected — but nothing "wins": `insert_one`
appends, so both documents are stored and coexist with the same
`trip_id`. -/
theorem trip_id_same_second (trips : List TripDoc) (uid : String) (d1 d2 : TripData)
    (t1 t2 : DateTime) (h : t1.sameSecond t2) :
    (mkTripDoc uid d1 t1).trip_id = (mkTripDoc uid d2 t2).trip_id ∧
    (save_trip_history (save_trip_history (Except.ok trips) uid d1 t1).2 uid d2 t2).2 =
      Except.ok (trips ++ [mkTripDoc uid d1 t1, mkTripDoc uid d2 t2]) := by
  obtain ⟨hy, hmo, hd, hh, hmi, hs⟩ := h
  constructor
  · simp [mkTripDoc, strftimeYmdHMS, hy, hmo, hd, hh, hmi, hs]
  · simp [save_trip_history]

/-- Witness for C5 (amended) at two timestamps 999899 microseconds
apart inside the same second. -/
theorem trip_id_same_second_witness :
    (mkTripDoc "u" ⟨some "Paris", none, none, none, none, none⟩
        ⟨2024, 6, 1, 12, 0, 5, 100⟩).trip_id =
      (mkTripDoc "u" ⟨some "Rome", none, none, none, none, none⟩
        ⟨2024, 6, 1, 12, 0, 5, 999999⟩).trip_id :=
  (trip_id_same_second [] "u" ⟨some "Paris", none, none, none, none, none⟩
    ⟨some "Rome", none, none, none, none, none⟩ ⟨2024, 6, 1, 12, 0, 5, 100⟩
    ⟨2024, 6, 1, 12, 0, 5, 999999⟩ ⟨rfl, rfl, rfl, rfl, rfl, rfl⟩).1

/-- Counterexample to C5 as stated: after two same-second saves the
collection holds BOTH records — two distinct documents sharing one
`trip_id` — so the collision is not "resolved as last write wins":
the first write is never replaced. -/
theorem trip_id_collision_not_last_write_wins :
    (mkTripDoc "u" ⟨some "Paris", none, none, none, none, none⟩
        ⟨2024, 6, 1, 12, 0, 5, 100⟩).trip_id =
      (mkTripDoc "u" ⟨some "Rome", none, none, none, none, none⟩
        ⟨2024, 6, 1, 12, 0, 5, 999999⟩).trip_id ∧
    (save_trip_history
        (save_trip_history (Except.ok ([] : List TripDoc)) "u"
          ⟨some "Paris", none, none, none, none, none⟩ ⟨2024, 6, 1, 12, 0, 5, 100⟩).2 "u"
        ⟨some "Rome", none, none, none, none, none⟩ ⟨2024, 6, 1, 12, 0, 5, 999999⟩).2 =
      Except.ok
        [mkTripDoc "u" ⟨some "Paris", none, none, none, none, none⟩ ⟨2024, 6, 1, 12, 0, 5, 100⟩,
         mkTripDoc "u" ⟨some "Rome", none, none, none, none, none⟩ ⟨2024, 6, 1, 12, 0, 5, 999999⟩] ∧
    mkTripDoc "u" ⟨some "Paris", none, none, none, none, none⟩ ⟨2024, 6, 1, 12, 0, 5, 100⟩ ≠
      mkTripDoc "u" ⟨some "Rome", none, none, none, none, none⟩ ⟨2024, 6, 1, 12, 0, 5, 999999⟩ := by
  refine ⟨by decide, by simp [save_trip_history], by decide⟩

lemma renderForecastAux_nil (cur : Option String) : renderForecastAux cur [] = [] := rfl

lemma renderForecastAux_cons (cur : Option String) (s : ForecastSample)
    (rest : List ForecastSample) :
    renderForecastAux cur (s :: rest) =
      if cur = some (sampleDate s) then
        sampleEntry s :: renderForecastAux (some (sampleDate s)) rest
      else
        ForecastLine.heading (sampleDate s) :: sampleEntry s ::
          renderForecastAux (some (sampleDate s)) rest := rfl

lemma renderForecastAux_run (d : String) (l : List ForecastSample) :
    renderForecastAux (some d) l =
      (l.takeWhile (fun t => sampleDate t == d)).map sampleEntry ++
        renderForecastAux (some d) (l.dropWhile (fun t => sampleDate t == d)) := by
  induction l with
  | nil => simp [renderForecastAux_nil]
  | cons s rest ih =>
      by_cases hd : (sampleDate s == d) = true
      · have hds : sampleDate s = d := beq_iff_eq.mp hd
        subst hds
        rw [renderForecastAux_cons, if_pos rfl]
        simp only [List.takeWhile_cons, List.dropWhile_cons, beq_self_eq_true, if_true,
          List.map_cons, List.cons_append]
        exact congrArg _ ih
      · have hsd : sampleDate s ≠ d := by simpa using hd
        have hne : some d ≠ some (sampleDate s) := by
          intro hcon
          exact hsd (Option.some.inj hcon).symm
        rw [renderForecastAux_cons, if_neg hne]
        simp only [List.takeWhile_cons, List.dropWhile_cons, hd, if_false,
          Bool.false_eq_true, List.map_nil, List.nil_append]
        rw [renderForecastAux_cons (some d) s rest, if_neg hne]


lemma groupedRender_nil : groupedRender [] = [] := by
  simp [groupedRender]

lemma groupedRender_cons (s : ForecastSample) (rest : List ForecastSample) :
    groupedRender (s :: rest) =
      ForecastLine.heading (sampleDate s) :: sampleEntry s ::
        ((rest.takeWhile (fun t => sampleDate t == sampleDate s)).map sampleEntry ++
          groupedRender (rest.dropWhile (fun t => sampleDate t == sampleDate s))) := by
  simp [groupedRender]

lemma dropWhile_head_false {α} (p : α → Bool) :
    ∀ (l : List α) (t : α) (r : List α), l.dropWhile p = t :: r → p t = false := by
  intro l
  induction l with
  | nil => intro t r h; simp [List.dropWhile] at h
  | cons x xs ih =>
      intro t r h
      rw [List.dropWhile_cons] at h
      by_cases hx : p x = true
      · rw [if_pos hx] at h
        exact ih t r h
      · rw [if_neg hx] at h
        cases h
        simpa using hx

lemma renderForecastAux_eq_groupedRender (n : Nat) :
    ∀ (l : List ForecastSample), l.length ≤ n → ∀ (cur : Option String),
      (∀ s rest, l = s :: rest → cur ≠ some (sampleDate s)) →
      renderForecastAux cur l = groupedRender l := by
  induction n with
  | zero =>
      intro l hl cur _
      rw [List.length_eq_zero.mp (Nat.le_zero.mp hl)]
      rw [renderForecastAux_nil, groupedRender_nil]
  | succ n ih =>
      intro l hl cur hcur
      cases l with
      | nil => rw [renderForecastAux_nil, groupedRender_nil]
      | cons s rest =>
          rw [renderForecastAux_cons, if_neg (hcur s rest rfl), groupedRender_cons]
          rw [renderForecastAux_run (sampleDate s) rest]
          congr 2
          congr 1
          apply ih
          · calc (rest.dropWhile (fun t => sampleDate t == sampleDate s)).length
                ≤ rest.length := List.Sublist.length_le (List.dropWhile_sublist _)
              _ ≤ n := by simpa [Nat.succ_le_succ_iff] using hl
          · intro t r2 heq
            have hpt := dropWhile_head_false (fun t => sampleDate t == sampleDate s) rest t r2 heq
            intro hcon
            have : sampleDate t = sampleDate s := (Option.some.inj hcon).symm
            simp [this] at hpt

/-- The rendering loop and the spec-side grouped renderer agree on
every input. -/
lemma renderForecast_eq_groupedRender (samples : List ForecastSample) :
    renderForecast samples = groupedRender samples := by
  apply renderForecastAux_eq_groupedRender samples.length samples le_rfl
  intro s rest _ hcon
  exact Option.noConfusion hcon


lemma headings_map_sampleEntry_append (xs : List ForecastSample) (r : List ForecastLine) :
    headings (xs.map sampleEntry ++ r) = headings r := by
  induction xs with
  | nil => rfl
  | cons x xs ih => simpa [sampleEntry, headings] using ih

lemma dedup_cons_run (d : String) (pre suf : List String)
    (hpre : ∀ x ∈ pre, x = d) (hsuf : d ∉ suf) :
    (d :: (pre ++ suf)).dedup = d :: suf.dedup := by
  induction pre with
  | nil => rw [List.nil_append, List.dedup_cons_of_not_mem hsuf]
  | cons x pre ih =>
      have hx : x = d := hpre x (List.mem_cons_self x pre)
      subst hx
      rw [List.cons_append, List.dedup_cons_of_mem (List.mem_cons_self x (pre ++ suf))]
      exact ih (fun y hy => hpre y (List.mem_cons_of_mem x hy))

lemma date_not_mem_dropWhile (s : ForecastSample) (rest : List ForecastSample)
    (hsort : ((s :: rest).map sampleDate).Pairwise (· ≤ ·)) :
    sampleDate s ∉ (rest.dropWhile (fun t => sampleDate t == sampleDate s)).map sampleDate := by
  intro hmem
  obtain ⟨q, hq, hqd⟩ := List.mem_map.mp hmem
  cases hr2 : rest.dropWhile (fun t => sampleDate t == sampleDate s) with
  | nil => rw [hr2] at hq; exact absurd hq (List.not_mem_nil q)
  | cons t r =>
      rw [hr2] at hq
      have htne : sampleDate t ≠ sampleDate s := by
        simpa using dropWhile_head_false _ rest t r hr2
      have hsubrest : (t :: r).Sublist rest := hr2 ▸ List.dropWhile_sublist _
      have hd_le : sampleDate s ≤ sampleDate t := by
        apply (List.pairwise_cons.mp hsort).1
        exact List.mem_map.mpr ⟨t, hsubrest.subset (List.mem_cons_self t r), rfl⟩
      rcases List.mem_cons.mp hq with rfl | hqr
      · exact htne hqd
      · have hpair2 : ((t :: r).map sampleDate).Pairwise (· ≤ ·) :=
          List.Pairwise.sublist
            (((hsubrest.map sampleDate).trans
              (List.sublist_cons_self (sampleDate s) (rest.map sampleDate)))) hsort
        have ht_le : sampleDate t ≤ sampleDate q :=
          (List.pairwise_cons.mp hpair2).1 (sampleDate q)
            (List.mem_map.mpr ⟨q, hqr, rfl⟩)
        rw [hqd] at ht_le
        exact htne (le_antisymm ht_le hd_le)

lemma headings_groupedRender (n : Nat) :
    ∀ l : List ForecastSample, l.length ≤ n →
      ((l.map sampleDate).Pairwise (· ≤ ·)) →
      headings (groupedRender l) = (l.map sampleDate).dedup := by
  induction n with
  | zero =>
      intro l hl _
      rw [List.length_eq_zero.mp (Nat.le_zero.mp hl), groupedRender_nil]
      rfl
  | succ n ih =>
      intro l hl hsort
      cases l with
      | nil => rw [groupedRender_nil]; rfl
      | cons s rest =>
          rw [groupedRender_cons]
          have h1 : headings (ForecastLine.heading (sampleDate s) :: sampleEntry s ::
              ((rest.takeWhile (fun t => sampleDate t == sampleDate s)).map sampleEntry ++
                groupedRender (rest.dropWhile (fun t => sampleDate t == sampleDate s)))) =
              sampleDate s :: headings
                (groupedRender (rest.dropWhile (fun t => sampleDate t == sampleDate s))) := by
            simp [headings, sampleEntry, headings_map_sampleEntry_append]
          rw [h1]
          have hpair2 : ((rest.dropWhile (fun t => sampleDate t == sampleDate s)).map
              sampleDate).Pairwise (· ≤ ·) :=
            List.Pairwise.sublist
              (((List.dropWhile_sublist _).map sampleDate).trans
                (List.sublist_cons_self (sampleDate s) (rest.map sampleDate))) hsort
          rw [ih _ (le_trans (List.Sublist.length_le (List.dropWhile_sublist _))
                (by simpa [Nat.succ_le_succ_iff] using hl)) hpair2]
          have hsplit :
              (s :: rest).map sampleDate =
                sampleDate s ::
                  ((rest.takeWhile (fun t => sampleDate t == sampleDate s)).map sampleDate ++
                   (rest.dropWhile (fun t => sampleDate t == sampleDate s)).map sampleDate) := by
            rw [← List.map_append, List.takeWhile_append_dropWhile, List.map_cons]
          rw [hsplit]
          rw [dedup_cons_run]
          · intro x hx
            obtain ⟨q, hq, hqd⟩ := List.mem_map.mp hx
            have := List.mem_takeWhile_imp hq
            rw [← hqd]
            simpa using this
          · exact date_not_mem_dropWhile s rest hsort


/-- C4: for a forecast whose sample dates are non-decreasing, the
rendered output equals the spec-side grouped rendering — one heading
per run of equal-dated samples, every sample line nested beneath the
heading of its own date — and the emitted date headings are exactly
the distinct sample dates, one heading each, in input order. -/
theorem forecast_grouping (samples : List ForecastSample)
    (h : (samples.map sampleDate).Sorted (· ≤ ·)) :
    renderForecast samples = groupedRender samples ∧
    headings (renderForecast samples) = (samples.map sampleDate).dedup := by
  refine ⟨renderForecast_eq_groupedRender samples, ?_⟩
  rw [renderForecast_eq_groupedRender samples]
  exact headings_groupedRender samples.length samples le_rfl h

/-- Witness for C4: three samples over two dates. -/
theorem forecast_grouping_witness :
    headings (renderForecast
      [⟨"2024-06-01 00:00:00", "20", "clear sky"⟩,
       ⟨"2024-06-01 03:00:00", "21", "few clouds"⟩,
       ⟨"2024-06-02 00:00:00", "19", "rain"⟩]) = ["2024-06-01", "2024-06-02"] := by
  have hs : ((([⟨"2024-06-01 00:00:00", "20", "clear sky"⟩,
       ⟨"2024-06-01 03:00:00", "21", "few clouds"⟩,
       ⟨"2024-06-02 00:00:00", "19", "rain"⟩] : List ForecastSample)).map sampleDate).Sorted (· ≤ ·) := by
    have e : (([⟨"2024-06-01 00:00:00", "20", "clear sky"⟩,
       ⟨"2024-06-01 03:00:00", "21", "few clouds"⟩,
       ⟨"2024-06-02 00:00:00", "19", "rain"⟩] : List ForecastSample)).map sampleDate =
        ["2024-06-01", "2024-06-01", "2024-06-02"] := by decide
    rw [e]
    simp only [List.sorted_cons, List.mem_cons, List.mem_singleton, List.not_mem_nil]
    refine ⟨?_, ?_, ?_⟩ <;> try intro b hb
    · rcases hb with rfl | rfl | h
      · exact le_refl _
      · exact String.le_iff_toList_le.mpr (by decide)
      · exact absurd h (fun x => x)
    · rcases hb with rfl | h
      · exact String.le_iff_toList_le.mpr (by decide)
      · exact absurd h (fun x => x)
    · simp
  rw [(forecast_grouping
      [⟨"2024-06-01 00:00:00", "20", "clear sky"⟩,
       ⟨"2024-06-01 03:00:00", "21", "few clouds"⟩,
       ⟨"2024-06-02 00:00:00", "19", "rain"⟩] hs).2]
  decide
end TravelScheduler
